import Mathlib

/-!
Shallow embedding of the restaurant-ordering API (cart, order, menu, roles,
response envelope) and proofs about its operations.

Conventions of the embedding:
* database rows become Lean structures; foreign keys are ids (`Nat`) except
  that a cart line carries its joined `MenuItem` row (mirroring the
  `select_related("menuitem")` fetch used by the views);
* `Decimal(max_digits=6, decimal_places=2)` money values are integers in
  cents (so `100.00` is `10000`);
* a Django queryset over an in-memory table is a `List` with `filter`;
* the `transaction.atomic()` block is modelled by `runAtomic`: a failure
  raised at any statement inside the block rolls the state back to the
  state at entry, a success commits all statements in order.
-/

namespace RestaurantApi

/-! Data model, from apps/restaurant/models.py -/

/-- MenuItem row (apps/restaurant/models.py, class MenuItem). -/
structure MenuItem where
  id : Nat
  title : String
  price : Int
  featured : Bool
  category : Nat
  deriving Repr, DecidableEq

/-- Cart row (apps/restaurant/models.py, class Cart); `menuitem` is the
joined row, as fetched by `select_related("menuitem")`. -/
structure CartLine where
  user : Nat
  menuitem : MenuItem
  quantity : Int
  unit_price : Int
  price : Int
  deriving Repr, DecidableEq

/-- Order row (apps/restaurant/models.py, class Order);
`status = false` is pending, `true` is completed. -/
structure Order where
  id : Nat
  user : Nat
  delivery_crew : Option Nat
  status : Bool
  total : Int
  date : Nat
  deriving Repr, DecidableEq

/-- OrderItem row (apps/restaurant/models.py, class OrderItem). -/
structure OrderItem where
  order : Nat
  menuitem : Option Nat
  item_title : String
  quantity : Int
  unit_price : Int
  price : Int
  deriving Repr, DecidableEq

/-! Role resolution, from apps/users/roles.py -/

/-- Priority used by the sort in `resolve_user_roles`
(apps/users/roles.py: the `priority` dict; unknown slugs get 99). -/
def rolePriority (r : String) : Nat :=
  if r = "manager" then 1
  else if r = "delivery_crew" then 2
  else if r = "customer" then 3
  else 99

/-- Stable insertion of one element into a priority-sorted list
(an element moves ahead of another only when strictly smaller,
matching the stability of the source language sort). -/
def insertByPriority (x : String) : List String → List String
  | [] => [x]
  | y :: ys =>
    if rolePriority x ≤ rolePriority y then x :: y :: ys
    else y :: insertByPriority x ys

/-- Stable sort by `rolePriority` (models `roles.sort(key=...)`). -/
def sortByPriority (l : List String) : List String :=
  l.foldr insertByPriority []

/-- Role resolver (apps/users/roles.py, `resolve_user_roles`): infer roles
from the names of the auth groups the user belongs to, defaulting to
customer, then sort by the fixed priority. -/
def resolve_user_roles (groupNames : List String) : List String :=
  let roles :=
    (if "Manager" ∈ groupNames then ["manager"] else []) ++
    (if "Delivery crew" ∈ groupNames then ["delivery_crew"] else [])
  let roles := if roles = [] then ["customer"] else roles
  sortByPriority roles

/-! Order list visibility, from apps/restaurant/views/order.py -/

/-- Role-scoped order queryset (apps/restaurant/views/order.py,
`OrderViewSet.get_queryset`): managers see all orders, delivery crew see
orders assigned to them, customers see their own orders, anything else
sees none. `role` is the primary role string used by the view. -/
def get_queryset (role : String) (requester : Nat) (orders : List Order) : List Order :=
  if role = "manager" then orders
  else if role = "delivery_crew" then
    orders.filter (fun o => o.delivery_crew == some requester)
  else if role = "customer" then
    orders.filter (fun o => o.user == requester)
  else []

/-! Menu price validation, from apps/restaurant/serializers/menu.py -/

/-- Price validator (apps/restaurant/serializers/menu.py,
`MenuItemWriteSerializer.validate_price`); `cents` is the decimal price in
cents, so the `> 100.0` bound is `> 10000`. -/
def validate_price (cents : Int) : Except String Int :=
  if cents ≤ 0 then Except.error "Must be a positive number."
  else if cents > 10000 then Except.error "Must not exceed 100.00."
  else Except.ok cents

/-! Response envelope, from apps/core/responses.py -/

/-- JSON-like value for response payloads. -/
inductive JsonVal where
  | null
  | str (s : String)
  | num (n : Int)
  | arr (l : List JsonVal)
  | obj (l : List (String × JsonVal))

/-- API response: an ordered JSON object body plus an HTTP status code. -/
structure ApiResponse where
  body : List (String × JsonVal)
  status : Nat

/-- Response formatter (apps/core/responses.py, `format_response`): the body
always carries `detail`; the `data` key is added only when the payload is
not `None` (`none` here models the source language `None`). -/
def format_response (detail : String) (data : Option JsonVal) (status : Nat) : ApiResponse :=
  { body := [("detail", JsonVal.str detail)] ++
      (match data with
       | some v => [("data", v)]
       | none => []),
    status := status }

/-- Key lookup on a response body. -/
def hasKey (k : String) (body : List (String × JsonVal)) : Bool :=
  body.any (fun p => p.1 == k)

/-- Destroy response (core/mixins/model_mixins.py,
`CustomDestroyModelMixin.destroy`): after deleting the row it returns
`format_response(detail, data=None, status=200)`. -/
def destroy_response (detail : String) : ApiResponse :=
  format_response detail none 200

/-! Cart operations, from apps/restaurant/serializers/cart.py and
apps/restaurant/views/cart.py -/

/-- Predicate for a cart line belonging to `user` for menu item `mid`
(the `Cart.objects.filter(user=user, menuitem=menuitem)` lookup). -/
def pairPred (user mid : Nat) (c : CartLine) : Bool :=
  c.user == user && c.menuitem.id == mid

/-- Result of a cart-line create attempt. -/
inductive CartCreateResult where
  | invalidQuantity
  | duplicate (msg : String)
  | ok (line : CartLine)
  deriving Repr, DecidableEq

/-- Cart-line creation (apps/restaurant/serializers/cart.py,
`CartCreateSerializer`): the quantity field is bounded to `[1, 99]`,
`validate` rejects a `(user, menuitem)` pair already present in the cart,
and `create` snapshots `unit_price` from the menu item and sets
`price = unit_price * quantity`. Returns the result and the cart table
afterwards. -/
def cart_create (user : Nat) (menuitem : MenuItem) (quantity : Int)
    (carts : List CartLine) : CartCreateResult × List CartLine :=
  if quantity < 1 || 99 < quantity then (CartCreateResult.invalidQuantity, carts)
  else if !(carts.filter (pairPred user menuitem.id)).isEmpty then
    (CartCreateResult.duplicate "This item is already in your cart.", carts)
  else
    let line : CartLine :=
      { user := user, menuitem := menuitem, quantity := quantity,
        unit_price := menuitem.price, price := menuitem.price * quantity }
    (CartCreateResult.ok line, carts ++ [line])

/-- Result of a cart-line update attempt. -/
inductive CartUpdateResult where
  | fieldError (field msg : String)
  | ok (line : CartLine)
  deriving Repr, DecidableEq

/-- Cart-line update (apps/restaurant/serializers/cart.py,
`CartUpdateSerializer` with `StrictFieldsMixin`): the payload is the
request body as key/value pairs; only `quantity` is declared, a missing
`quantity` is an error (by field requiredness on a full update, by the
explicit check in `validate` on a partial one), bounds are `[1, 99]`, any
undeclared key is rejected, and `update` recomputes
`price = unit_price * quantity`. Returns the result and the line
afterwards. -/
def cart_update (_isPartial : Bool) (payload : List (String × Int))
    (line : CartLine) : CartUpdateResult × CartLine :=
  match payload.lookup "quantity" with
  | none => (CartUpdateResult.fieldError "quantity" "This field is required.", line)
  | some q =>
    if q < 1 || 99 < q then
      (CartUpdateResult.fieldError "quantity" "Quantity out of range.", line)
    else if payload.any (fun p => !(p.1 == "quantity")) then
      (CartUpdateResult.fieldError "unknown" "Unexpected field.", line)
    else
      let updated := { line with quantity := q, price := line.unit_price * q }
      (CartUpdateResult.ok updated, updated)

/-- Cart clearing (apps/restaurant/views/cart.py, `CartViewSet.clear_cart`):
if the requester has no cart lines it answers 200 with a nothing-to-clear
detail, otherwise it deletes the requester's lines and answers 200. -/
def clear_cart (user : Nat) (carts : List CartLine) : ApiResponse × List CartLine :=
  let cart := carts.filter (fun c => c.user == user)
  if cart.isEmpty then
    (format_response "No items in cart. Nothing to clear." none 200, carts)
  else
    (format_response "Cart cleared successfully." none 200,
     carts.filter (fun c => !(c.user == user)))

/-! Order creation, from apps/restaurant/views/order.py -/

/-- Database state touched by order placement. -/
structure DBState where
  carts : List CartLine
  orders : List Order
  orderItems : List OrderItem
  nextOrderId : Nat
  deriving Repr, DecidableEq

/-- Requester's cart queryset (`Cart.objects.filter(user=user)`). -/
def cartItemsOf (user : Nat) (s : DBState) : List CartLine :=
  s.carts.filter (fun c => c.user == user)

/-- Order line built from a cart line (apps/restaurant/views/order.py,
the `OrderItem(...)` constructor call in `OrderViewSet.create`): the
menu item reference and its title come from the joined menu item row,
quantity, unit price and price come from the cart line itself. -/
def orderItemFromCart (orderId : Nat) (c : CartLine) : OrderItem :=
  { order := orderId,
    menuitem := some c.menuitem.id,
    item_title := c.menuitem.title,
    quantity := c.quantity,
    unit_price := c.unit_price,
    price := c.price }

/-- Statements inside the `transaction.atomic()` block of
`OrderViewSet.create`, in source order:
1. `Order.objects.create(user=user, total=0, date=...)` — delivery crew
   unassigned, status defaulting to pending, placeholder total;
2. `OrderItem.objects.bulk_create(...)` of one order line per cart line;
3. `order.total = total_order_price; order.save()`;
4. `cart_items.delete()`. -/
def orderTxStmts (user date orderId : Nat) (cs : List CartLine) :
    List (DBState → DBState) :=
  [ fun s => { s with
      orders := s.orders ++
        [{ id := orderId, user := user, delivery_crew := none,
           status := false, total := 0, date := date }],
      nextOrderId := orderId + 1 },
    fun s => { s with orderItems := s.orderItems ++ cs.map (orderItemFromCart orderId) },
    fun s => { s with orders := s.orders.map (fun o =>
      if o.id == orderId then { o with total := (cs.map (fun c => c.price)).sum } else o) },
    fun s => { s with carts := s.carts.filter (fun c => !(c.user == user)) } ]

/-- Transaction semantics of `with transaction.atomic():` — an exception
raised at any statement (`failAt = some k`, the index of the raising
statement) rolls back every uncommitted write, an exception-free run
commits all statements in order. -/
def runAtomic (stmts : List (DBState → DBState)) (failAt : Option Nat)
    (s : DBState) : Option DBState :=
  match failAt with
  | some _ => none
  | none => some (stmts.foldl (fun st f => f st) s)

/-- Result of an order-create request. -/
inductive OrderCreateResult where
  | error (detail : String) (status : Nat)
  | txnAborted
  | created (o : Order)
  deriving Repr, DecidableEq

/-- Order placement (apps/restaurant/views/order.py, `OrderViewSet.create`):
reject with 400 when the requester's cart is empty, otherwise run the
cart-to-order transition inside one atomic transaction and serialize the
created order. `failAt` injects a failure into the transaction. -/
def orderCreate (user date : Nat) (failAt : Option Nat) (s : DBState) :
    OrderCreateResult × DBState :=
  let cs := cartItemsOf user s
  if cs.isEmpty then
    (OrderCreateResult.error
      "Your cart is empty. Add items to your cart before placing an order." 400, s)
  else
    match runAtomic (orderTxStmts user date s.nextOrderId cs) failAt s with
    | none => (OrderCreateResult.txnAborted, s)
    | some s2 =>
      (OrderCreateResult.created
        { id := s.nextOrderId, user := user, delivery_crew := none,
          status := false, total := (cs.map (fun c => c.price)).sum, date := date },
       s2)

/-! Order list filters, from restaurant/filters.py and users/utils/roles.py -/

/-- User row for username-based filter lookups. -/
structure UserRec where
  id : Nat
  username : String
  deriving Repr, DecidableEq

/-- Single-role resolver (users/utils/roles.py, `get_user_role`): manager
if in the Manager group, else delivery crew if in the Delivery crew group,
else customer. -/
def get_user_role (groupNames : List String) : String :=
  if "Manager" ∈ groupNames then "manager"
  else if "Delivery crew" ∈ groupNames then "delivery_crew"
  else "customer"

/-- Filter a queryset by a user-valued field (restaurant/filters.py,
`OrderFilter._filter_by_user_field`): the value is stripped and lowered,
digits filter by primary key, the literal `null` filters for an
unassigned field, anything else filters by case-insensitive username
through the `users` table. -/
def filter_by_user_field (users : List UserRec) (field : Order → Option Nat)
    (value : String) (qs : List Order) : List Order :=
  let v := (value.trim).toLower
  if !v.isEmpty && v.all Char.isDigit then
    qs.filter (fun o => field o == some (v.toNat?.getD 0))
  else if v = "null" then
    qs.filter (fun o => field o == none)
  else
    qs.filter (fun o =>
      match field o with
      | some uid => users.any (fun u => u.id == uid && u.username.toLower == v)
      | none => false)

/-- Order filter by customer (restaurant/filters.py,
`OrderFilter.filter_user`): a no-op unless the requester's role is
manager. -/
def filter_user (groupNames : List String) (users : List UserRec)
    (value : String) (qs : List Order) : List Order :=
  if get_user_role groupNames = "manager" then
    filter_by_user_field users (fun o => some o.user) value qs
  else qs

/-- Order filter by delivery crew (restaurant/filters.py,
`OrderFilter.filter_delivery_crew`): a no-op unless the requester's role
is manager. -/
def filter_delivery_crew (groupNames : List String) (users : List UserRec)
    (value : String) (qs : List Order) : List Order :=
  if get_user_role groupNames = "manager" then
    filter_by_user_field users (fun o => o.delivery_crew) value qs
  else qs

/-! Concrete fixtures used by witnesses. -/

def mi1 : MenuItem := { id := 5, title := "Pizza", price := 950, featured := false, category := 1 }

def mi2 : MenuItem := { id := 6, title := "Cola", price := 300, featured := true, category := 2 }

def exLine1 : CartLine := { user := 7, menuitem := mi1, quantity := 2, unit_price := 950, price := 1900 }

def exLine2 : CartLine := { user := 7, menuitem := mi2, quantity := 1, unit_price := 300, price := 300 }

def exLine3 : CartLine := { user := 8, menuitem := mi1, quantity := 1, unit_price := 950, price := 950 }

def exState : DBState := { carts := [exLine1, exLine2, exLine3], orders := [], orderItems := [], nextOrderId := 1 }

def exOrder1 : Order := { id := 1, user := 7, delivery_crew := some 3, status := false, total := 1900, date := 10 }

def exOrder2 : Order := { id := 2, user := 9, delivery_crew := none, status := true, total := 300, date := 11 }

/-! Theorems -/

/-- Claim C4: role resolution returns a non-empty ordered list; it contains
manager iff the user is in the Manager group, delivery_crew iff the user is
in the Delivery crew group, equals exactly [customer] iff the user is in
neither group, and when both groups hold it is [manager, delivery_crew],
whose first (primary) element is manager. -/
theorem resolve_user_roles_spec (G : List String) :
    resolve_user_roles G ≠ [] ∧
    ("manager" ∈ resolve_user_roles G ↔ "Manager" ∈ G) ∧
    ("delivery_crew" ∈ resolve_user_roles G ↔ "Delivery crew" ∈ G) ∧
    (resolve_user_roles G = ["customer"] ↔ ("Manager" ∉ G ∧ "Delivery crew" ∉ G)) ∧
    ("Manager" ∈ G → "Delivery crew" ∈ G →
      resolve_user_roles G = ["manager", "delivery_crew"] ∧
      (resolve_user_roles G).head? = some "manager") := by
  by_cases hM : "Manager" ∈ G <;> by_cases hD : "Delivery crew" ∈ G <;>
    simp [resolve_user_roles, sortByPriority, insertByPriority, rolePriority, hM, hD]

/-- Witness for C4 at concrete group lists. -/
theorem resolve_user_roles_spec_witness :
    resolve_user_roles ["Manager", "Delivery crew"] ≠ [] ∧
    resolve_user_roles ["Manager", "Delivery crew"] = ["manager", "delivery_crew"] ∧
    (resolve_user_roles ["Manager", "Delivery crew"]).head? = some "manager" ∧
    resolve_user_roles ["Somegroup"] = ["customer"] := by
  refine ⟨(resolve_user_roles_spec ["Manager", "Delivery crew"]).1, ?_, ?_, ?_⟩
  · exact ((resolve_user_roles_spec ["Manager", "Delivery crew"]).2.2.2.2
      (by decide) (by decide)).1
  · exact ((resolve_user_roles_spec ["Manager", "Delivery crew"]).2.2.2.2
      (by decide) (by decide)).2
  · exact (resolve_user_roles_spec ["Somegroup"]).2.2.2.1.mpr (by decide)

/-- Claim C3: listing orders returns all orders for a manager, exactly the
orders assigned to the requester for delivery crew, exactly the orders
owned by the requester for a customer, and the empty set for any other
role. -/
theorem order_list_visibility (role : String) (requester : Nat) (orders : List Order) :
    (role = "manager" → get_queryset role requester orders = orders) ∧
    (role = "delivery_crew" → ∀ o, o ∈ get_queryset role requester orders ↔
      o ∈ orders ∧ o.delivery_crew = some requester) ∧
    (role = "customer" → ∀ o, o ∈ get_queryset role requester orders ↔
      o ∈ orders ∧ o.user = requester) ∧
    (role ≠ "manager" → role ≠ "delivery_crew" → role ≠ "customer" →
      get_queryset role requester orders = []) := by
  refine ⟨fun h => ?_, fun h o => ?_, fun h o => ?_, fun h1 h2 h3 => ?_⟩ <;>
    simp [get_queryset, *]

/-- Witness for C3 at a concrete role, requester and order table. -/
theorem order_list_visibility_witness :
    get_queryset "manager" 3 [exOrder1, exOrder2] = [exOrder1, exOrder2] ∧
    (exOrder1 ∈ get_queryset "delivery_crew" 3 [exOrder1, exOrder2] ↔
      exOrder1 ∈ [exOrder1, exOrder2] ∧ exOrder1.delivery_crew = some 3) ∧
    (exOrder2 ∈ get_queryset "customer" 9 [exOrder1, exOrder2] ↔
      exOrder2 ∈ [exOrder1, exOrder2] ∧ exOrder2.user = 9) ∧
    get_queryset "admin" 3 [exOrder1, exOrder2] = [] :=
  ⟨(order_list_visibility "manager" 3 [exOrder1, exOrder2]).1 rfl,
   (order_list_visibility "delivery_crew" 3 [exOrder1, exOrder2]).2.1 rfl exOrder1,
   (order_list_visibility "customer" 9 [exOrder1, exOrder2]).2.2.1 rfl exOrder2,
   (order_list_visibility "admin" 3 [exOrder1, exOrder2]).2.2.2
     (by decide) (by decide) (by decide)⟩

/-- Claim C7: the menu item price validator rejects any price at most 0 or
above 100.00 with a field-level error and accepts exactly the prices in
the interval (0, 100.00], prices being decimals in cents. -/
theorem validate_price_spec (cents : Int) :
    (validate_price cents = Except.ok cents ↔ (0 < cents ∧ cents ≤ 10000)) ∧
    ((cents ≤ 0 ∨ 10000 < cents) ↔ ∃ msg, validate_price cents = Except.error msg) := by
  unfold validate_price
  constructor
  · split
    · constructor
      · intro h
        exact absurd h (by simp)
      · intro h
        omega
    · split
      · constructor
        · intro h
          exact absurd h (by simp)
        · intro h
          omega
      · constructor
        · intro _
          omega
        · intro _
          rfl
  · split
    · simp
      omega
    · split
      · simp
        omega
      · constructor
        · intro h
          omega
        · rintro ⟨msg, h⟩
          exact absurd h (by simp)

/-- Claim C10: for a requester whose role is not manager, the `user` and
`delivery_crew` order-list filters return the queryset unchanged for every
filter value, so the result is identical to the request without the
parameter. -/
theorem order_filters_noop_for_non_manager (groupNames : List String)
    (users : List UserRec) (value : String) (qs : List Order)
    (h : get_user_role groupNames ≠ "manager") :
    filter_user groupNames users value qs = qs ∧
    filter_delivery_crew groupNames users value qs = qs := by
  constructor <;> simp [filter_user, filter_delivery_crew, h]

/-- Witness for C10: a delivery-crew requester filtering by another user id. -/
theorem order_filters_noop_for_non_manager_witness :
    filter_user ["Delivery crew"] [{ id := 9, username := "amy" }] "9"
      [exOrder1, exOrder2] = [exOrder1, exOrder2] ∧
    filter_delivery_crew ["Delivery crew"] [{ id := 9, username := "amy" }] "null"
      [exOrder1, exOrder2] = [exOrder1, exOrder2] :=
  ⟨(order_filters_noop_for_non_manager ["Delivery crew"]
      [{ id := 9, username := "amy" }] "9" [exOrder1, exOrder2] (by decide)).1,
   (order_filters_noop_for_non_manager ["Delivery crew"]
      [{ id := 9, username := "amy" }] "null" [exOrder1, exOrder2] (by decide)).2⟩

/-- Helper: re-filtering for a user after the lines of that user were
deleted yields nothing. -/
theorem filter_user_after_delete (user : Nat) (carts : List CartLine) :
    ((carts.filter fun c => !(c.user == user)).filter fun c => c.user == user) = [] := by
  induction carts with
  | nil => rfl
  | cons c cs ih =>
    by_cases h : c.user = user <;>
      simp [List.filter_cons, h, ih]

/-- Claim C9: clearing the cart is idempotent at the interface — it always
answers 200, clearing an already-empty cart answers 200 with the
nothing-to-clear detail and deletes nothing, and clearing twice leaves the
same state as clearing once. -/
theorem clear_cart_idempotent (user : Nat) (carts : List CartLine) :
    (clear_cart user ((clear_cart user carts).2)).2 = (clear_cart user carts).2 ∧
    (clear_cart user carts).1.status = 200 ∧
    (clear_cart user ((clear_cart user carts).2)).1.status = 200 ∧
    ((carts.filter fun c => c.user == user).isEmpty = true →
      clear_cart user carts =
        (format_response "No items in cart. Nothing to clear." none 200, carts)) := by
  refine ⟨?_, ?_, ?_, ?_⟩
  · by_cases h : (carts.filter fun c => c.user == user).isEmpty = true
    · simp [clear_cart, h]
    · simp only [clear_cart, h]
      simp [filter_user_after_delete, h]
  · by_cases h : (carts.filter fun c => c.user == user).isEmpty = true <;>
      simp [clear_cart, format_response, h]
  · by_cases h : (carts.filter fun c => c.user == user).isEmpty = true <;>
      simp [clear_cart, format_response, filter_user_after_delete, h]
  · intro h
    simp [clear_cart, h]

/-- Witness for C9 at a concrete cart. -/
theorem clear_cart_idempotent_witness :
    (clear_cart 7 ((clear_cart 7 [exLine1, exLine3]).2)).2 = (clear_cart 7 [exLine1, exLine3]).2 ∧
    (clear_cart 8 []).1.status = 200 ∧
    clear_cart 8 [] = (format_response "No items in cart. Nothing to clear." none 200, []) :=
  ⟨(clear_cart_idempotent 7 [exLine1, exLine3]).1,
   (clear_cart_idempotent 8 []).2.1,
   (clear_cart_idempotent 8 []).2.2.2 rfl⟩

/-- Counterexample to claim C8 as stated: the successful (status 200)
clear-cart response on an empty cart carries no `data` key at all — its
body is only the `detail` entry, rather than `data` being present with a
null value. -/
theorem response_data_key_counterexample :
    (clear_cart 8 []).1.status = 200 ∧
    hasKey "data" (clear_cart 8 []).1.body = false ∧
    (clear_cart 8 []).1.body =
      [("detail", JsonVal.str "No items in cart. Nothing to clear.")] :=
  ⟨rfl, rfl, rfl⟩

/-- Claim C8 (amended): every successful response body carries a `detail`
string; the `data` key is present exactly when a non-null payload is
supplied, and it is omitted (not set to null) when there is no payload —
in particular delete and clear responses carry only `detail`. -/
theorem response_envelope_shape (detail : String) (data : Option JsonVal) (status : Nat) :
    hasKey "detail" (format_response detail data status).body = true ∧
    hasKey "data" (format_response detail data status).body = data.isSome ∧
    (destroy_response detail).body = [("detail", JsonVal.str detail)] ∧
    (∀ user carts, hasKey "data" (clear_cart user carts).1.body = false) := by
  refine ⟨?_, ?_, rfl, ?_⟩
  · simp [hasKey, format_response]
  · cases data <;> simp [hasKey, format_response]
  · intro user carts
    by_cases h : (carts.filter fun c => c.user == user).isEmpty = true <;>
      simp [clear_cart, format_response, hasKey, h]

/-- Claim C5: adding a menu item that is already in the requester's cart is
rejected as a duplicate conflict, not merged or overwritten; the cart is
unchanged and still holds exactly one line for that (user, menuitem) pair. -/
theorem cart_duplicate_conflict (user : Nat) (m : MenuItem) (qty : Int)
    (carts : List CartLine)
    (hq1 : 1 ≤ qty) (hq2 : qty ≤ 99)
    (hdup : (carts.filter (pairPred user m.id)).length = 1) :
    cart_create user m qty carts =
      (CartCreateResult.duplicate "This item is already in your cart.", carts) ∧
    ((cart_create user m qty carts).2.filter (pairPred user m.id)).length = 1 := by
  have hcond : (decide (qty < 1) || decide (99 < qty)) = false := by
    simp
    omega
  have hne : (carts.filter (pairPred user m.id)).isEmpty = false := by
    cases hfe : carts.filter (pairPred user m.id) with
    | nil => rw [hfe] at hdup; simp at hdup
    | cons a l => simp
  refine ⟨?_, ?_⟩
  · simp [cart_create, hcond, hne]
  · simp [cart_create, hcond, hne, hdup]

/-- Witness for C5: the second attempt to add mi1 to the cart of user 7. -/
theorem cart_duplicate_conflict_witness :
    cart_create 7 mi1 3 [exLine1, exLine2] =
      (CartCreateResult.duplicate "This item is already in your cart.",
       [exLine1, exLine2]) ∧
    ((cart_create 7 mi1 3 [exLine1, exLine2]).2.filter (pairPred 7 mi1.id)).length = 1 :=
  cart_duplicate_conflict 7 mi1 3 [exLine1, exLine2] (by decide) (by decide) (by decide)

/-- Claim C6: a cart-line update accepts only the quantity field — any
payload with another key is rejected leaving the line unchanged — and for
a valid quantity in [1, 99] it sets `price = unit_price * quantity` while
leaving `unit_price`, `user` and `menuitem` untouched, never re-reading
the live menu item price. -/
theorem cart_update_spec (isP : Bool) (payload : List (String × Int))
    (line : CartLine) (q : Int)
    (hq : payload.lookup "quantity" = some q)
    (h1 : 1 ≤ q) (h2 : q ≤ 99)
    (honly : ∀ kv ∈ payload, kv.1 = "quantity") :
    (cart_update isP payload line =
      (CartUpdateResult.ok { line with quantity := q, price := line.unit_price * q },
       { line with quantity := q, price := line.unit_price * q }) ∧
     (cart_update isP payload line).2.unit_price = line.unit_price ∧
     (cart_update isP payload line).2.user = line.user ∧
     (cart_update isP payload line).2.menuitem = line.menuitem ∧
     (cart_update isP payload line).2.price = line.unit_price * q) ∧
    (∀ payload2 : List (String × Int),
      (∃ kv ∈ payload2, kv.1 ≠ "quantity") →
      ∃ f msg, cart_update isP payload2 line = (CartUpdateResult.fieldError f msg, line)) := by
  have hcond : (decide (q < 1) || decide (99 < q)) = false := by
    simp
    omega
  have hany : (payload.any fun p => !(p.1 == "quantity")) = false := by
    rw [List.any_eq_false]
    intro p hp
    simp [honly p hp]
  have hmain : cart_update isP payload line =
      (CartUpdateResult.ok { line with quantity := q, price := line.unit_price * q },
       { line with quantity := q, price := line.unit_price * q }) := by
    simp [cart_update, hq, hcond, hany]
  refine ⟨⟨hmain, ?_, ?_, ?_, ?_⟩, ?_⟩
  · rw [hmain]
  · rw [hmain]
  · rw [hmain]
  · rw [hmain]
  · rintro payload2 ⟨kv, hkv, hne⟩
    cases hl : payload2.lookup "quantity" with
    | none =>
      exact ⟨"quantity", "This field is required.", by simp [cart_update, hl]⟩
    | some q2 =>
      by_cases hb : (decide (q2 < 1) || decide (99 < q2)) = true
      · exact ⟨"quantity", "Quantity out of range.", by simp [cart_update, hl, hb]⟩
      · have hany2 : (payload2.any fun p => !(p.1 == "quantity")) = true := by
          rw [List.any_eq_true]
          exact ⟨kv, hkv, by simp [hne]⟩
        refine ⟨"unknown", "Unexpected field.", ?_⟩
        rw [Bool.not_eq_true] at hb
        simp [cart_update, hl, hb, hany2]

/-- Witness for C6: updating the quantity of a concrete line to 4, and the
rejection of a payload with a stray field. -/
theorem cart_update_spec_witness :
    cart_update false [("quantity", 4)] exLine1 =
      (CartUpdateResult.ok { exLine1 with quantity := 4, price := exLine1.unit_price * 4 },
       { exLine1 with quantity := 4, price := exLine1.unit_price * 4 }) ∧
    (cart_update false [("quantity", 4)] exLine1).2.unit_price = exLine1.unit_price ∧
    (∃ f msg, cart_update false [("quantity", 4), ("unit_price", 100)] exLine1 =
      (CartUpdateResult.fieldError f msg, exLine1)) := by
  have h := cart_update_spec false [("quantity", 4)] exLine1 4 rfl
    (by decide) (by decide) (by decide)
  exact ⟨h.1.1, h.1.2.1,
    h.2 [("quantity", 4), ("unit_price", 100)] ⟨("unit_price", 100), by decide, by decide⟩⟩

/-- Helper: updating the total of the row with a fresh id leaves a table
without that id unchanged. -/
theorem map_total_update_of_fresh (orderId : Nat) (t : Int) (orders : List Order)
    (h : ∀ o ∈ orders, o.id ≠ orderId) :
    (orders.map fun o => if o.id == orderId then { o with total := t } else o) = orders := by
  induction orders with
  | nil => rfl
  | cons o os ih =>
    have h1 : (o.id == orderId) = false := by
      simp [h o (List.mem_cons_self o os)]
    simp only [List.map_cons, h1, Bool.false_eq_true, if_false]
    rw [ih (fun x hx => h x (List.mem_cons_of_mem o hx))]

/-- Claim C2: placing an order with an empty cart is rejected with a 400
error message before any mutation — regardless of whether a transaction
failure would have been injected, the state is returned unchanged, with no
order row and no order line created. -/
theorem order_create_empty_cart (user date : Nat) (failAt : Option Nat) (s : DBState)
    (h : cartItemsOf user s = []) :
    orderCreate user date failAt s =
      (OrderCreateResult.error
        "Your cart is empty. Add items to your cart before placing an order." 400, s) := by
  simp [orderCreate, h]

/-- Witness for C2: a user with no cart lines in the example state. -/
theorem order_create_empty_cart_witness :
    orderCreate 99 5 none exState =
      (OrderCreateResult.error
        "Your cart is empty. Add items to your cart before placing an order." 400,
       exState) :=
  order_create_empty_cart 99 5 none exState (by decide)

/-- Claim C1: for a non-empty cart whose line prices sum to T, order
placement creates exactly one order with total T, no delivery crew and
pending status, appends exactly one order line per cart line copying
menuitem, item title, quantity, unit price and price from that cart line,
and empties the requester's cart; and the transition is all-or-nothing — a
failure injected at any statement of the transaction leaves the state
exactly unchanged. -/
theorem order_create_spec (user date : Nat) (s : DBState) (T : Int)
    (hne : cartItemsOf user s ≠ [])
    (hT : ((cartItemsOf user s).map fun c => c.price).sum = T)
    (hfresh : ∀ o ∈ s.orders, o.id ≠ s.nextOrderId) :
    ∃ o s2,
      orderCreate user date none s = (OrderCreateResult.created o, s2) ∧
      o.total = T ∧ o.delivery_crew = none ∧ o.status = false ∧
      s2.orders = s.orders ++ [o] ∧
      s2.orderItems = s.orderItems ++
        (cartItemsOf user s).map (orderItemFromCart s.nextOrderId) ∧
      ((cartItemsOf user s).map (orderItemFromCart s.nextOrderId)).length =
        (cartItemsOf user s).length ∧
      List.Forall₂ (fun c oi =>
          oi.menuitem = some c.menuitem.id ∧ oi.item_title = c.menuitem.title ∧
          oi.quantity = c.quantity ∧ oi.unit_price = c.unit_price ∧ oi.price = c.price)
        (cartItemsOf user s)
        ((cartItemsOf user s).map (orderItemFromCart s.nextOrderId)) ∧
      cartItemsOf user s2 = [] ∧
      (∀ k, orderCreate user date (some k) s = (OrderCreateResult.txnAborted, s)) := by
  subst hT
  have hie : (cartItemsOf user s).isEmpty = false := by
    cases hc : cartItemsOf user s with
    | nil => exact absurd hc hne
    | cons a l => rfl
  refine ⟨{ id := s.nextOrderId, user := user, delivery_crew := none, status := false,
            total := ((cartItemsOf user s).map fun c => c.price).sum, date := date },
          { carts := s.carts.filter (fun c => !(c.user == user)),
            orders := s.orders ++
              [{ id := s.nextOrderId, user := user, delivery_crew := none, status := false,
                 total := ((cartItemsOf user s).map fun c => c.price).sum, date := date }],
            orderItems := s.orderItems ++
              (cartItemsOf user s).map (orderItemFromCart s.nextOrderId),
            nextOrderId := s.nextOrderId + 1 },
          ?_, rfl, rfl, rfl, rfl, rfl, by simp, ?_, ?_, ?_⟩
  · simp only [orderCreate, hie, Bool.false_eq_true, if_false, runAtomic, orderTxStmts,
      List.foldl_cons, List.foldl_nil]
    simp only [List.map_append, map_total_update_of_fresh _ _ _ hfresh, List.map_cons,
      List.map_nil, beq_self_eq_true, if_pos, DBState.mk.injEq]
  · rw [List.forall₂_map_right_iff, List.forall₂_same]
    intro c _
    exact ⟨rfl, rfl, rfl, rfl, rfl⟩
  · exact filter_user_after_delete user s.carts
  · intro k
    simp [orderCreate, hie, runAtomic]

/-- Witness for C1: user 7 places an order from a two-line cart summing to
2200 cents in the example state. -/
theorem order_create_spec_witness :
    ∃ o s2,
      orderCreate 7 0 none exState = (OrderCreateResult.created o, s2) ∧
      o.total = 2200 ∧ o.delivery_crew = none ∧ o.status = false ∧
      s2.orders = exState.orders ++ [o] ∧
      s2.orderItems = exState.orderItems ++
        (cartItemsOf 7 exState).map (orderItemFromCart exState.nextOrderId) ∧
      ((cartItemsOf 7 exState).map (orderItemFromCart exState.nextOrderId)).length =
        (cartItemsOf 7 exState).length ∧
      List.Forall₂ (fun c oi =>
          oi.menuitem = some c.menuitem.id ∧ oi.item_title = c.menuitem.title ∧
          oi.quantity = c.quantity ∧ oi.unit_price = c.unit_price ∧ oi.price = c.price)
        (cartItemsOf 7 exState)
        ((cartItemsOf 7 exState).map (orderItemFromCart exState.nextOrderId)) ∧
      cartItemsOf 7 s2 = [] ∧
      (∀ k, orderCreate 7 0 (some k) exState = (OrderCreateResult.txnAborted, exState)) :=
  order_create_spec 7 0 exState 2200 (by decide) (by decide) (by decide)

end RestaurantApi
